import Mathlib

/-!
Verification of the Trust Game experiment (`src/experiment.js`,
`src/data-submitter.js`).

The JavaScript source is shallowly embedded: numbers are modelled as `ℚ`
(all arithmetic the program performs on the modelled domain is exact, and
`Math.floor` is `Int.floor`), strings as `String`, and the mutable
`TrustGameExperiment` object as an explicit state record threaded through a
deterministic step function over UI events.
-/

namespace TrustGame

/-- One trial record, as pushed by `TrustGameExperiment.makeDecision`
(`src/experiment.js` lines 169-179). -/
structure Trial where
  round : ℕ
  amount_sent : ℚ
  amount_kept : ℚ
  partner_received : ℚ
  amount_returned : ℤ
  final_earnings : ℚ
  return_rate : ℚ
  timestamp : String
  reaction_time : ℕ
  deriving DecidableEq, Repr

/-- The fixed per-round partner table `[0.3, 0.6, 0.1, 0.8, 0.4]`
(`src/experiment.js` line 164).  The JavaScript doubles are modelled as the
exact rationals they denote in source text; for every product
`amountSent * 3 * rate` with `amountSent ∈ {0,5,10}` the IEEE-754 evaluation
and the exact rational evaluation have the same floor, so the model is
faithful on the reachable domain. -/
def returnRates : List ℚ := [3/10, 3/5, 1/10, 4/5, 2/5]

/-- The lookup `returnRates[currentRound - 1]` (`src/experiment.js` line 166).  A JS
out-of-range index yields `undefined`; the default `0` here is never used by
any theorem below (all uses have `1 ≤ r ≤ 5`). -/
def returnRate (currentRound : ℕ) : ℚ := returnRates.getD (currentRound - 1) 0

/-- The decision handler `TrustGameExperiment.makeDecision` (`src/experiment.js` lines 159-179),
restricted to the trial record it computes and pushes.  Note the source
performs no validation of `amountSent`. -/
def makeDecision (currentRound : ℕ) (amountSent : ℚ) (reactionTime : ℕ)
    (ts : String) : Trial :=
  let partnerReceived := amountSent * 3 + 10
  let amountReturned := ⌊amountSent * 3 * returnRate currentRound⌋
  let finalEarnings := (10 - amountSent) + amountReturned
  { round := currentRound
    amount_sent := amountSent
    amount_kept := 10 - amountSent
    partner_received := partnerReceived
    amount_returned := amountReturned
    final_earnings := finalEarnings
    return_rate := returnRate currentRound
    timestamp := ts
    reaction_time := reactionTime }

/-- The classifier `TrustGameExperiment.analyzeTrustPattern` (`src/experiment.js`
lines 262-270). -/
def analyzeTrustPattern (trials : List Trial) : String :=
  let amounts := trials.map (·.amount_sent)
  let avgAmount := amounts.sum / (amounts.length : ℚ)
  if avgAmount ≥ 8 then "High Trust"
  else if avgAmount ≥ 5 then "Moderate Trust"
  else if avgAmount ≥ 2 then "Low Trust"
  else "Very Low Trust"

/-- The demographics record set by `saveDemographics` (`src/experiment.js`
lines 120-124). -/
structure Demographics where
  age : ℕ
  gender : String
  field : String
  deriving DecidableEq, Repr

/-- The summary record set by `showFinalResults` (`src/experiment.js`
lines 214-219). -/
structure Summary where
  total_earnings : ℚ
  average_amount_sent : ℚ
  trust_pattern : String
  completion_time : String
  deriving DecidableEq, Repr

/-- The accumulating `this.data` record (`src/experiment.js` lines 8-16).
`demographics` and `summary` start as empty objects `{}`, modelled as
`none`. -/
structure SessionData where
  participant_id : String
  timestamp : String
  experiment : String
  version : String
  demographics : Option Demographics
  trials : List Trial
  summary : Option Summary
  deriving DecidableEq, Repr

/-- Which screen `this.container` currently shows. -/
inductive Phase where
  | welcome
  | instructions
  | demographics
  | decision
  | feedback
  | finalResults
  deriving DecidableEq, Repr

/-- The mutable state of a `TrustGameExperiment` instance. -/
structure ExpState where
  phase : Phase
  currentRound : ℕ
  currentStep : ℕ
  data : SessionData
  deriving DecidableEq, Repr

/-- The state built by the constructor (`src/experiment.js` lines 5-24),
parametrised by the generated participant id and the start timestamp. -/
def initState (pid ts : String) : ExpState :=
  { phase := .welcome
    currentRound := 0
    currentStep := 0
    data :=
      { participant_id := pid
        timestamp := ts
        experiment := "trust_game"
        version := "1.0"
        demographics := none
        trials := []
        summary := none } }

/-- UI events: each corresponds to one button the rendered screen offers. -/
inductive Ev where
  | contInstructions
  | contDemographics
  | submitDemo (age : ℕ) (gender field : String)
  | decide (amountSent : ℚ) (reactionTime : ℕ) (ts : String)
  | next
  | finish (completionTime : String)
  | restartConfirm
  deriving DecidableEq, Repr

/-- The reset handler `TrustGameExperiment.restart` (`src/experiment.js` lines 423-430):
guarded by `confirm(...)`; clears `trials` and the round counters and shows
the welcome screen.  It does not touch `participantId`, `demographics` or
`summary`. -/
def restart (confirmed : Bool) (s : ExpState) : ExpState :=
  if confirmed then
    { s with
      phase := .welcome
      currentRound := 0
      currentStep := 0
      data := { s.data with trials := [] } }
  else s

/-- One UI transition (`none` when the current screen does not offer the
event's button, or a guard rejects it).  Guards mirror the rendered markup:
`saveDemographics` rejects `age < 18` (line 115, staying on the form);
the decision screen offers exactly the amounts 0, 5 and 10 (lines 152-154);
feedback offers `nextRound` only while `currentRound < totalRounds` and
`showFinalResults` only at the last round (lines 197-200). -/
def exec (s : ExpState) (e : Ev) : Option ExpState :=
  match s.phase, e with
  | .welcome, .contInstructions => some { s with phase := .instructions }
  | .instructions, .contDemographics => some { s with phase := .demographics }
  | .demographics, .submitDemo age gender field =>
      if age < 18 then some s
      else
        let dg : Demographics :=
          { age
            gender := if gender = "" then "Not specified" else gender
            field := if field = "" then "Not specified" else field }
        some { s with
          phase := .decision
          currentRound := 1
          data := { s.data with demographics := some dg } }
  | .decision, .decide a rt ts =>
      if a = 0 ∨ a = 5 ∨ a = 10 then
        some { s with
          phase := .feedback
          data := { s.data with
            trials := s.data.trials ++ [makeDecision s.currentRound a rt ts] } }
      else none
  | .feedback, .next =>
      if s.currentRound < 5 then
        some { s with phase := .decision, currentRound := s.currentRound + 1 }
      else none
  | .feedback, .finish ct =>
      if s.currentRound < 5 then none
      else
        let totalEarnings := (s.data.trials.map (·.final_earnings)).sum
        let avgSent := (s.data.trials.map (·.amount_sent)).sum /
          (s.data.trials.length : ℚ)
        let sm : Summary :=
          { total_earnings := totalEarnings
            average_amount_sent := avgSent
            trust_pattern := analyzeTrustPattern s.data.trials
            completion_time := ct }
        some { s with
          phase := .finalResults
          data := { s.data with summary := some sm } }
  | .finalResults, .restartConfirm => some (restart true s)
  | _, _ => none

/-- Run a list of UI events from a state. -/
def run (s : ExpState) (evs : List Ev) : Option ExpState :=
  evs.foldlM exec s

/-- A state is reachable when some event sequence leads the constructor's
state to it. -/
def Reachable (pid ts : String) (s : ExpState) : Prop :=
  ∃ evs : List Ev, run (initState pid ts) evs = some s

/-! ## JavaScript string interpolation of the values this program produces -/

/-- Decimal digits of a natural number, most significant first (the `fuel`
argument only makes the recursion structural; `fuel > n` always holds at the
call site).  Models the JavaScript `${n}` rendering of a non-negative
integer. -/
def natReprAux : ℕ → ℕ → List Char
  | 0, _ => []
  | fuel + 1, n =>
      if n < 10 then [Char.ofNat (48 + n)]
      else natReprAux fuel (n / 10) ++ [Char.ofNat (48 + n % 10)]

def natRepr (n : ℕ) : String := ⟨natReprAux (n + 1) n⟩

/-- JavaScript `${i}` for an integer. -/
def intRepr (i : ℤ) : String :=
  if i < 0 then "-" ++ natRepr i.natAbs else natRepr i.toNat

/-- JavaScript `${q}` for the numbers this program interpolates: integers
render without a decimal point, and the only non-integers produced are exact
tenths/fifths/halves (the return-rate table), which JavaScript prints with a
single fractional digit (`0.3`).  Other denominators never occur in the
modelled program. -/
def decRepr (q : ℚ) : String :=
  if q.den = 1 then intRepr q.num
  else
    intRepr (q.num.fdiv q.den) ++ "." ++
      natRepr ((q.num - q.num.fdiv q.den * q.den).toNat * 10 / q.den)

/-- JavaScript `this.data.demographics.age || ''` (an absent field and the number `0`
are both falsy in JavaScript). -/
def demoAge : Option Demographics → String
  | none => ""
  | some d => if d.age = 0 then "" else natRepr d.age

/-- JavaScript `this.data.demographics.gender || ''`. -/
def demoGender : Option Demographics → String
  | none => ""
  | some d => d.gender

/-- JavaScript `this.data.demographics.field || ''`. -/
def demoField : Option Demographics → String
  | none => ""
  | some d => d.field

/-- JavaScript `this.data.summary.total_earnings || ''`. -/
def sumTotal : Option Summary → String
  | none => ""
  | some sm => if sm.total_earnings = 0 then "" else decRepr sm.total_earnings

/-- JavaScript `this.data.summary.average_amount_sent || ''`. -/
def sumAvg : Option Summary → String
  | none => ""
  | some sm =>
      if sm.average_amount_sent = 0 then "" else decRepr sm.average_amount_sent

/-- JavaScript `this.data.summary.trust_pattern || ''`. -/
def sumPattern : Option Summary → String
  | none => ""
  | some sm => sm.trust_pattern

/-- JavaScript `this.data.summary.completion_time || ''`. -/
def sumCompletion : Option Summary → String
  | none => ""
  | some sm => sm.completion_time

/-- JavaScript `Array.prototype.join(sep)`. -/
def joinSep (sep : String) : List String → String
  | [] => ""
  | [a] => a
  | a :: b :: rest => a ++ sep ++ joinSep sep (b :: rest)

/-- JavaScript `row.map(field => `"${field}"`).join(',')`. -/
def quoteJoin (row : List String) : String :=
  joinSep "," (row.map (fun f => "\"" ++ f ++ "\""))

/-- JavaScript `[headers, ...rows].map(quoteJoin).join('\n')`. -/
def renderGrid (grid : List (List String)) : String :=
  joinSep "\n" (grid.map quoteJoin)

/-- The serializer `TrustGameExperiment.convertToCSV` (`src/experiment.js` lines 322-377):
header list and one row per trial, every field interpolated and wrapped in
double quotes with no escaping. -/
def TrustGameExperiment.convertToCSV (d : SessionData) : String :=
  let headers : List String :=
    ["participant_id", "experiment", "version", "participant_timestamp",
     "age", "gender", "field", "round", "amount_sent", "amount_kept",
     "partner_received", "amount_returned", "final_earnings", "return_rate",
     "trial_timestamp", "reaction_time", "total_earnings",
     "average_amount_sent", "trust_pattern", "completion_time"]
  let rows : List (List String) := d.trials.map fun trial =>
    [d.participant_id, d.experiment, d.version, d.timestamp,
     demoAge d.demographics, demoGender d.demographics, demoField d.demographics,
     natRepr trial.round, decRepr trial.amount_sent, decRepr trial.amount_kept,
     decRepr trial.partner_received, intRepr trial.amount_returned,
     decRepr trial.final_earnings, decRepr trial.return_rate, trial.timestamp,
     natRepr trial.reaction_time, sumTotal d.summary, sumAvg d.summary,
     sumPattern d.summary, sumCompletion d.summary]
  renderGrid (headers :: rows)

/-- The serializer `DataSubmitter.convertToCSV` (`src/data-submitter.js` lines 291-341),
the second, independent copy of the serializer used to build submission
payloads. -/
def DataSubmitter.convertToCSV (data : SessionData) : String :=
  let headers : List String :=
    ["participant_id", "experiment", "version", "participant_timestamp",
     "age", "gender", "field", "round", "amount_sent", "amount_kept",
     "partner_received", "amount_returned", "final_earnings", "return_rate",
     "trial_timestamp", "reaction_time", "total_earnings",
     "average_amount_sent", "trust_pattern", "completion_time"]
  let rows : List (List String) := data.trials.map fun trial =>
    [data.participant_id, data.experiment, data.version, data.timestamp,
     demoAge data.demographics, demoGender data.demographics,
     demoField data.demographics,
     natRepr trial.round, decRepr trial.amount_sent, decRepr trial.amount_kept,
     decRepr trial.partner_received, intRepr trial.amount_returned,
     decRepr trial.final_earnings, decRepr trial.return_rate, trial.timestamp,
     natRepr trial.reaction_time, sumTotal data.summary, sumAvg data.summary,
     sumPattern data.summary, sumCompletion data.summary]
  renderGrid (headers :: rows)

/-! ## The submission pipeline (`src/data-submitter.js`) -/

/-- The transports the pipeline can invoke. -/
inductive Transport where
  | osfDataPipe
  | localStorageSave
  deriving DecidableEq, Repr

/-- The fields of the result object relevant to the claims. -/
structure SubmitResult where
  success : Bool
  method : String
  deriving DecidableEq, Repr

/-- The pipeline's ordered strategy list as implemented: the remote OSF
DataPipe strategy first, then the local-storage fallback. -/
def strategyOrder : List Transport := [.osfDataPipe, .localStorageSave]

/-- The pipeline entry `DataSubmitter.submitData`, OSF variant (`src/data-submitter.js` lines
215-245).  The outcome of the awaited remote strategy
(`submitViaOSFDataPipe`, which catches its own errors and returns a
success flag) is supplied as the oracle `osfSucceeds`; the function returns
the result object together with the ordered list of strategies the run
invoked.  On remote success it returns immediately; on remote failure it
calls `saveToLocalStorage` and returns `success: false` with
`method: 'local_storage'`.  Both paths return normally (no exception escapes
`submitData`). -/
def DataSubmitter.submitData (osfSucceeds : Bool) : SubmitResult × List Transport :=
  if osfSucceeds then
    ({ success := true, method := "osf_datapipe" }, [.osfDataPipe])
  else
    ({ success := false, method := "local_storage" },
     [.osfDataPipe, .localStorageSave])

/-- The pipeline entry `DataSubmitter.submitData`, first variant (`src/data-submitter.js` lines
17-45): no remote strategy is attempted; the data is saved to local storage
and the result reports `success: true` with `method: 'local_storage'`. -/
def DataSubmitter.submitDataV1 : SubmitResult × List Transport :=
  ({ success := true, method := "local_storage" }, [.localStorageSave])

/-! ## A standard CSV reader, for the round-trip claims

A reference RFC-4180-style parser for fully quoted CSV: every field must be
wrapped in double quotes, `""` inside a field is an escaped quote, fields
are separated by `,` and records by a newline; quoted fields may contain
commas and newlines.  It is used to state what "re-parsing the output"
recovers. -/

/-- Parser mode: before a field's opening quote, inside a quoted field, or
just after a closing quote. -/
inductive CsvMode where
  | expectField
  | inQuotes
  | afterQuote
  deriving DecidableEq, Repr

/-- Parser state: completed rows, completed fields of the current row, and
the accumulated characters of the current field. -/
structure CsvPState where
  rows : List (List String)
  row : List String
  fieldAcc : List Char
  mode : CsvMode
  deriving DecidableEq, Repr

/-- One character of CSV input (`none` = malformed). -/
def csvStep (st : CsvPState) (c : Char) : Option CsvPState :=
  match st.mode with
  | .expectField =>
      if c = '"' then some { st with mode := .inQuotes } else none
  | .inQuotes =>
      if c = '"' then some { st with mode := .afterQuote }
      else some { st with fieldAcc := st.fieldAcc ++ [c] }
  | .afterQuote =>
      if c = '"' then
        some { st with fieldAcc := st.fieldAcc ++ ['"'], mode := .inQuotes }
      else if c = ',' then
        some { st with
               row := st.row ++ [⟨st.fieldAcc⟩]
               fieldAcc := []
               mode := .expectField }
      else if c = '\n' then
        some { st with
               rows := st.rows ++ [st.row ++ [⟨st.fieldAcc⟩]]
               row := []
               fieldAcc := []
               mode := .expectField }
      else none

/-- Parse a CSV document of fully quoted fields into its grid of fields. -/
def csvParse (s : String) : Option (List (List String)) :=
  match s.data.foldlM csvStep ⟨[], [], [], .expectField⟩ with
  | none => none
  | some st =>
      match st.mode with
      | .afterQuote => some (st.rows ++ [st.row ++ [⟨st.fieldAcc⟩]])
      | _ => none

/-- The mean amount sent, as computed by `analyzeTrustPattern` and
`showFinalResults`. -/
def averageAmountSent (trials : List Trial) : ℚ :=
  (trials.map (·.amount_sent)).sum / ((trials.map (·.amount_sent)).length : ℚ)

/-- The decision sequence of the spec's end-to-end scenario. -/
def c2Events : List Ev :=
  [.contInstructions, .contDemographics, .submitDemo 25 "" "",
   .decide 0 5 "t1", .next, .decide 5 5 "t2", .next, .decide 10 5 "t3",
   .next, .decide 5 5 "t4", .next, .decide 0 5 "t5", .finish "CT"]

/-- The header row both CSV serializers emit. -/
def csvHeaderRow : List String :=
  ["participant_id", "experiment", "version", "participant_timestamp",
   "age", "gender", "field", "round", "amount_sent", "amount_kept",
   "partner_received", "amount_returned", "final_earnings", "return_rate",
   "trial_timestamp", "reaction_time", "total_earnings",
   "average_amount_sent", "trust_pattern", "completion_time"]

/-- One data row of the CSV export, exactly as both serializers build it. -/
def csvTrialRow (d : SessionData) (trial : Trial) : List String :=
  [d.participant_id, d.experiment, d.version, d.timestamp,
   demoAge d.demographics, demoGender d.demographics, demoField d.demographics,
   natRepr trial.round, decRepr trial.amount_sent, decRepr trial.amount_kept,
   decRepr trial.partner_received, intRepr trial.amount_returned,
   decRepr trial.final_earnings, decRepr trial.return_rate, trial.timestamp,
   natRepr trial.reaction_time, sumTotal d.summary, sumAvg d.summary,
   sumPattern d.summary, sumCompletion d.summary]

/-- The grid of fields (`[headers, ...rows]`) the serializers render. -/
def sessionGrid (d : SessionData) : List (List String) :=
  csvHeaderRow :: d.trials.map (csvTrialRow d)

/-- Read a decimal digit string back as a number (the standard left fold of
its digits), used to re-derive numeric columns from parsed CSV text. -/
def strToNat (s : String) : ℕ :=
  s.data.foldl (fun acc c => acc * 10 + (c.toNat - 48)) 0

/-- The character stream of one rendered CSV row. -/
def rowChars : List String → List Char
  | [] => []
  | [f] => '"' :: (f.data ++ ['"'])
  | f :: g :: rest => ('"' :: (f.data ++ ['"'])) ++ ',' :: rowChars (g :: rest)

/-- The character stream of a rendered CSV grid. -/
def gridChars : List (List String) → List Char
  | [] => []
  | [r] => rowChars r
  | r :: r2 :: rest => rowChars r ++ '\n' :: gridChars (r2 :: rest)

/-- How one UI event changes the number of stored trials: a decision
appends one trial, a confirmed restart clears them, everything else leaves
them alone. -/
def trialCount (k : ℕ) : Ev → ℕ
  | .decide _ _ _ => k + 1
  | .restartConfirm => 0
  | _ => k

/-- The number of rounds completed (since the last restart) by an event
sequence. -/
def completedRounds (evs : List Ev) : ℕ := evs.foldl trialCount 0

/-- The session invariant: trial round indices are exactly 1..length in
order, every stored final-earnings value is a natural number, and the trial
count is tied to the current phase and round counter (with the summary a
faithful fold of the trials once the final-results screen is reached). -/
def SessionInv (s : ExpState) : Prop :=
  (∀ i (hi : i < s.data.trials.length),
      (s.data.trials.get ⟨i, hi⟩).round = i + 1) ∧
  (∀ t ∈ s.data.trials, ∃ n : ℕ, t.final_earnings = (n : ℚ)) ∧
  ((s.phase = .welcome ∨ s.phase = .instructions ∨ s.phase = .demographics) →
      s.data.trials = []) ∧
  (s.phase = .decision →
      s.data.trials.length + 1 = s.currentRound ∧ s.currentRound ≤ 5) ∧
  (s.phase = .feedback →
      s.data.trials.length = s.currentRound ∧ s.currentRound ≤ 5) ∧
  (s.phase = .finalResults →
      s.data.trials.length = 5 ∧ s.currentRound = 5 ∧
      ∃ sm, s.data.summary = some sm ∧
        sm.total_earnings = (s.data.trials.map (·.final_earnings)).sum)

/-- A concrete four-event prefix ending just after the first decision. -/
def c4Evs : List Ev :=
  [.contInstructions, .contDemographics, .submitDemo 25 "" "",
   .decide 0 7 "t"]

/-- The state `c4Evs` reaches from the constructor's state. -/
def c4State : ExpState :=
  { phase := .feedback
    currentRound := 1
    currentStep := 0
    data :=
      { participant_id := "P"
        timestamp := "TS"
        experiment := "trust_game"
        version := "1.0"
        demographics := some { age := 25, gender := "Not specified",
                               field := "Not specified" }
        trials := [makeDecision 1 0 7 "t"]
        summary := none } }

/-- A full five-round session (all decisions $0) used as the concrete
round-trip witness. -/
def c9Evs : List Ev :=
  [.contInstructions, .contDemographics, .submitDemo 25 "G" "F",
   .decide 0 5 "u1", .next, .decide 0 5 "u2", .next, .decide 0 5 "u3",
   .next, .decide 0 5 "u4", .next, .decide 0 5 "u5", .finish "CT9"]

/-- The literal final state `c9Evs` reaches. -/
def c9State : ExpState :=
  { phase := .finalResults
    currentRound := 5
    currentStep := 0
    data :=
      { participant_id := "P9"
        timestamp := "TS9"
        experiment := "trust_game"
        version := "1.0"
        demographics := some { age := 25, gender := "G", field := "F" }
        trials :=
          [{ round := 1, amount_sent := 0, amount_kept := 10,
             partner_received := 10, amount_returned := 0,
             final_earnings := 10, return_rate := mkRat 3 10,
             timestamp := "u1", reaction_time := 5 },
           { round := 2, amount_sent := 0, amount_kept := 10,
             partner_received := 10, amount_returned := 0,
             final_earnings := 10, return_rate := mkRat 3 5,
             timestamp := "u2", reaction_time := 5 },
           { round := 3, amount_sent := 0, amount_kept := 10,
             partner_received := 10, amount_returned := 0,
             final_earnings := 10, return_rate := mkRat 1 10,
             timestamp := "u3", reaction_time := 5 },
           { round := 4, amount_sent := 0, amount_kept := 10,
             partner_received := 10, amount_returned := 0,
             final_earnings := 10, return_rate := mkRat 4 5,
             timestamp := "u4", reaction_time := 5 },
           { round := 5, amount_sent := 0, amount_kept := 10,
             partner_received := 10, amount_returned := 0,
             final_earnings := 10, return_rate := mkRat 2 5,
             timestamp := "u5", reaction_time := 5 }]
        summary := some { total_earnings := 50, average_amount_sent := 0,
                          trust_pattern := "Very Low Trust",
                          completion_time := "CT9" } } }

/-- A full five-round session whose gender answer embeds a double quote. -/
def c9BadEvs : List Ev :=
  [.contInstructions, .contDemographics,
   .submitDemo 25 "say \"hi\"" "F",
   .decide 0 5 "u1", .next, .decide 0 5 "u2", .next, .decide 0 5 "u3",
   .next, .decide 0 5 "u4", .next, .decide 0 5 "u5", .finish "CTB"]

/-- The literal final state `c9BadEvs` reaches. -/
def c9BadState : ExpState :=
  { phase := .finalResults
    currentRound := 5
    currentStep := 0
    data :=
      { participant_id := "PB"
        timestamp := "TSB"
        experiment := "trust_game"
        version := "1.0"
        demographics := some { age := 25, gender := "say \"hi\"",
                               field := "F" }
        trials :=
          [{ round := 1, amount_sent := 0, amount_kept := 10,
             partner_received := 10, amount_returned := 0,
             final_earnings := 10, return_rate := mkRat 3 10,
             timestamp := "u1", reaction_time := 5 },
           { round := 2, amount_sent := 0, amount_kept := 10,
             partner_received := 10, amount_returned := 0,
             final_earnings := 10, return_rate := mkRat 3 5,
             timestamp := "u2", reaction_time := 5 },
           { round := 3, amount_sent := 0, amount_kept := 10,
             partner_received := 10, amount_returned := 0,
             final_earnings := 10, return_rate := mkRat 1 10,
             timestamp := "u3", reaction_time := 5 },
           { round := 4, amount_sent := 0, amount_kept := 10,
             partner_received := 10, amount_returned := 0,
             final_earnings := 10, return_rate := mkRat 4 5,
             timestamp := "u4", reaction_time := 5 },
           { round := 5, amount_sent := 0, amount_kept := 10,
             partner_received := 10, amount_returned := 0,
             final_earnings := 10, return_rate := mkRat 2 5,
             timestamp := "u5", reaction_time := 5 }]
        summary := some { total_earnings := 50, average_amount_sent := 0,
                          trust_pattern := "Very Low Trust",
                          completion_time := "CTB" } } }

end TrustGame

open TrustGame

/-- C1: every trial record computed by `makeDecision` with a round index in
1..5 and an amount sent in {0, 5, 10} satisfies the derived-field equations:
`amount_kept = 10 - amount_sent`, `partner_received = amount_sent * 3 + 10`,
`amount_returned = ⌊amount_sent * 3 * returnRate r⌋` with the fixed per-round
table, and `final_earnings = amount_kept + amount_returned`. -/
theorem trust_c1_makeDecision_derived_fields (r : ℕ) (a : ℚ) (rt : ℕ)
    (ts : String) (hr : 1 ≤ r ∧ r ≤ 5) (ha : a = 0 ∨ a = 5 ∨ a = 10) :
    (makeDecision r a rt ts).round = r ∧
    (makeDecision r a rt ts).amount_sent = a ∧
    (makeDecision r a rt ts).amount_kept =
      10 - (makeDecision r a rt ts).amount_sent ∧
    (makeDecision r a rt ts).partner_received =
      (makeDecision r a rt ts).amount_sent * 3 + 10 ∧
    (makeDecision r a rt ts).amount_returned =
      ⌊(makeDecision r a rt ts).amount_sent * 3 * returnRate r⌋ ∧
    (makeDecision r a rt ts).final_earnings =
      (makeDecision r a rt ts).amount_kept +
        (makeDecision r a rt ts).amount_returned :=
  ⟨rfl, rfl, rfl, rfl, rfl, rfl⟩

/-- Witness for C1 at round 2, amount 5. -/
theorem trust_c1_witness :
    (makeDecision 2 5 100 "T").amount_returned =
      ⌊(makeDecision 2 5 100 "T").amount_sent * 3 * returnRate 2⌋ :=
  (trust_c1_makeDecision_derived_fields 2 5 100 "T" (by omega)
    (Or.inr (Or.inl rfl))).2.2.2.2.1

set_option maxHeartbeats 4000000 in
/-- C2: the concrete session with demographics {age: 25} and decisions
[0, 5, 10, 5, 0] yields per-round final earnings [10, 14, 3, 17, 10],
total earnings 54, average amount sent 4, and trust pattern "Low Trust". -/
theorem trust_c2_end_to_end :
    (run (initState "P" "TS") c2Events).map
        (fun s => (s.data.demographics, s.data.trials.map (·.final_earnings),
                   s.data.summary)) =
      some (some { age := 25, gender := "Not specified",
                   field := "Not specified" },
            [10, 14, 3, 17, 10],
            some { total_earnings := 54, average_amount_sent := 4,
                   trust_pattern := "Low Trust", completion_time := "CT" }) := by
  norm_num [run, c2Events, List.foldlM, exec, initState, makeDecision,
    returnRate, returnRates, restart, analyzeTrustPattern]

/-- C3: for a non-empty trials list the trust category is the discretization
of the average amount sent into the four half-open bands, and in particular
average 8 gives "High Trust", 5 gives "Moderate Trust", 2 gives "Low Trust"
and 1.99 gives "Very Low Trust". -/
theorem trust_c3_trust_bands (trials : List Trial) (hne : trials ≠ []) :
    (averageAmountSent trials < 2 →
      analyzeTrustPattern trials = "Very Low Trust") ∧
    (2 ≤ averageAmountSent trials → averageAmountSent trials < 5 →
      analyzeTrustPattern trials = "Low Trust") ∧
    (5 ≤ averageAmountSent trials → averageAmountSent trials < 8 →
      analyzeTrustPattern trials = "Moderate Trust") ∧
    (8 ≤ averageAmountSent trials →
      analyzeTrustPattern trials = "High Trust") ∧
    analyzeTrustPattern [makeDecision 1 8 0 ""] = "High Trust" ∧
    analyzeTrustPattern [makeDecision 1 5 0 ""] = "Moderate Trust" ∧
    analyzeTrustPattern [makeDecision 1 2 0 ""] = "Low Trust" ∧
    analyzeTrustPattern [makeDecision 1 (199/100) 0 ""] = "Very Low Trust" := by
  have heq : analyzeTrustPattern trials =
      (if averageAmountSent trials ≥ 8 then "High Trust"
       else if averageAmountSent trials ≥ 5 then "Moderate Trust"
       else if averageAmountSent trials ≥ 2 then "Low Trust"
       else "Very Low Trust") := rfl
  refine ⟨?_, ?_, ?_, ?_, ?_, ?_, ?_, ?_⟩
  case _ => intro h; rw [heq]; split_ifs <;> first | rfl | linarith
  case _ => intro h1 h2; rw [heq]; split_ifs <;> first | rfl | linarith
  case _ => intro h1 h2; rw [heq]; split_ifs <;> first | rfl | linarith
  case _ => intro h; rw [heq]; split_ifs <;> first | rfl | linarith
  case _ => norm_num [analyzeTrustPattern, makeDecision]
  case _ => norm_num [analyzeTrustPattern, makeDecision]
  case _ => norm_num [analyzeTrustPattern, makeDecision]
  case _ => norm_num [analyzeTrustPattern, makeDecision]

/-- Witness for C3 on a concrete single-trial list with amount 0. -/
theorem trust_c3_witness :
    analyzeTrustPattern [makeDecision 1 0 0 ""] = "Very Low Trust" :=
  (trust_c3_trust_bands [makeDecision 1 0 0 ""] (by simp)).1 (by
    simp [averageAmountSent, makeDecision])

/-- C5: the submission pipeline invokes its strategies strictly in the fixed
order, never re-invokes a strategy within one submission, and stops at the
first success; in particular when the first (remote) strategy succeeds, no
later strategy is invoked at all. -/
theorem trust_c5_pipeline_stops_at_first_success (osfSucceeds : Bool) :
    ((DataSubmitter.submitData osfSucceeds).2).Nodup ∧
    ((DataSubmitter.submitData osfSucceeds).2) <+: strategyOrder ∧
    (DataSubmitter.submitData true).2 = [Transport.osfDataPipe] := by
  cases osfSucceeds <;>
    refine ⟨by simp [DataSubmitter.submitData], ?_, rfl⟩ <;>
    exact ⟨_, rfl⟩

/-- C6 counterexample: when the remote OSF strategy fails, the pipeline's
result reports `success: false` (the claim asserts it still reports
success with the local fallback). -/
theorem trust_c6_counterexample :
    (DataSubmitter.submitData false).1.success = false := rfl

/-- C6 (amended): when the remote strategy fails, `submitData` still returns
normally, the local-storage fallback strategy does run, and the result's
method is `local_storage` — but `success` is reported as `false`, not
`true`; the earlier no-remote variant of `submitData` is the one that
reports `success: true` with local storage. -/
theorem trust_c6_local_fallback :
    (DataSubmitter.submitData false).1.method = "local_storage" ∧
    Transport.localStorageSave ∈ (DataSubmitter.submitData false).2 ∧
    (DataSubmitter.submitData false).1.success = false ∧
    DataSubmitter.submitDataV1.1.success = true ∧
    DataSubmitter.submitDataV1.1.method = "local_storage" := by
  refine ⟨rfl, ?_, rfl, rfl, rfl⟩
  simp [DataSubmitter.submitData]

set_option maxHeartbeats 4000000 in
/-- C7 counterexample: a full session that ends with a confirmed restart
keeps the very same participant id (the claim asserts a fresh id is drawn
by re-running the id generation). -/
theorem trust_c7_counterexample :
    (run (initState "P1700000000000_123" "TS")
        [.contInstructions, .contDemographics, .submitDemo 25 "" "",
         .decide 0 5 "t1", .next, .decide 0 5 "t2", .next, .decide 0 5 "t3",
         .next, .decide 0 5 "t4", .next, .decide 0 5 "t5", .finish "CT",
         .restartConfirm]).map (·.data.participant_id)
      = some "P1700000000000_123" := by
  norm_num [run, List.foldlM, exec, initState, makeDecision, returnRate,
    returnRates, restart, analyzeTrustPattern]

/-- C7 (amended): a confirmed restart returns to the Welcome screen with
the trials cleared and the round counter reset, but the participant id is
reused unchanged (the constructor's id generation is not re-run). -/
theorem trust_c7_restart_keeps_participant_id (s : ExpState) :
    (restart true s).phase = Phase.welcome ∧
    (restart true s).data.trials = [] ∧
    (restart true s).currentRound = 0 ∧
    (restart true s).data.participant_id = s.data.participant_id :=
  ⟨rfl, rfl, rfl, rfl⟩

/-- C8 counterexample: the payoff computation called with the invalid
amount 3 (outside {0, 5, 10}) does not abort: it silently produces a full
trial record with the derived fields computed from 3. -/
theorem trust_c8_counterexample :
    makeDecision 1 3 0 "t" =
      { round := 1, amount_sent := 3, amount_kept := 7, partner_received := 19,
        amount_returned := 2, final_earnings := 9, return_rate := 3/10,
        timestamp := "t", reaction_time := 0 } := by
  norm_num [makeDecision, returnRate, returnRates, Trial.mk.injEq]

/-- C8 (amended): `makeDecision` performs no input validation at all — for
every amount sent (also outside {0, 5, 10}) and every round it computes the
derived fields by the same formulas and produces a trial record; no abort
path exists. -/
theorem trust_c8_no_validation (r : ℕ) (a : ℚ) (rt : ℕ) (ts : String) :
    (makeDecision r a rt ts).round = r ∧
    (makeDecision r a rt ts).amount_sent = a ∧
    (makeDecision r a rt ts).amount_kept = 10 - a ∧
    (makeDecision r a rt ts).partner_received = a * 3 + 10 ∧
    (makeDecision r a rt ts).amount_returned = ⌊a * 3 * returnRate r⌋ ∧
    (makeDecision r a rt ts).final_earnings =
      (10 - a) + (⌊a * 3 * returnRate r⌋ : ℚ) :=
  ⟨rfl, rfl, rfl, rfl, rfl, rfl⟩

theorem returnRate_nonneg (r : ℕ) : 0 ≤ returnRate r := by
  unfold returnRate returnRates
  rcases r with - | - | - | - | - | - | n <;>
    simp [List.getD] <;> norm_num

theorem makeDecision_final_nat (r : ℕ) (a : ℚ)
    (ha : a = 0 ∨ a = 5 ∨ a = 10) (rt : ℕ) (ts : String) :
    ∃ n : ℕ, (makeDecision r a rt ts).final_earnings = (n : ℚ) := by
  have h0 : 0 ≤ a * 3 * returnRate r := by
    rcases ha with h | h | h <;> subst h <;>
      exact mul_nonneg (by norm_num) (returnRate_nonneg r)
  have hk0 : 0 ≤ ⌊a * 3 * returnRate r⌋ := Int.floor_nonneg.mpr h0
  obtain ⟨m, hm⟩ : ∃ m : ℕ, (10 : ℚ) - a = (m : ℚ) := by
    rcases ha with h | h | h <;> subst h
    · exact ⟨10, by norm_num⟩
    · exact ⟨5, by norm_num⟩
    · exact ⟨0, by norm_num⟩
  obtain ⟨km, hkm⟩ := Int.eq_ofNat_of_zero_le hk0
  refine ⟨m + km, ?_⟩
  show (10 - a) + ((⌊a * 3 * returnRate r⌋ : ℤ) : ℚ) = _
  rw [hm, hkm]
  push_cast
  ring

theorem exec_preserves_inv {s s' : ExpState} {e : Ev} (hI : SessionInv s)
    (hx : exec s e = some s') : SessionInv s' := by
  obtain ⟨hround, hnat, hempty, hdec, hfb, hfin⟩ := hI
  cases hp : s.phase <;> cases e <;>
    simp only [exec, hp] at hx <;> try exact Option.noConfusion hx
  case welcome.contInstructions =>
    obtain rfl := Option.some_injective _ hx
    simp_all [SessionInv]
  case instructions.contDemographics =>
    obtain rfl := Option.some_injective _ hx
    simp_all [SessionInv]
  case demographics.submitDemo age g f =>
    split at hx <;> obtain rfl := Option.some_injective _ hx
    · simp_all [SessionInv, hp]
    · simp_all [SessionInv]
  case decision.decide a rt ts =>
    split at hx
    case isFalse => exact Option.noConfusion hx
    case isTrue ha =>
      obtain rfl := Option.some_injective _ hx
      obtain ⟨hlen, hle⟩ := hdec hp
      refine ⟨?_, ?_, by simp [SessionInv], by simp [SessionInv], ?_, by simp [SessionInv]⟩
      · intro i hi
        simp only at hi ⊢
        rcases Nat.lt_or_ge i s.data.trials.length with h | h
        · rw [List.get_eq_getElem, List.getElem_append_left h]
          exact hround i h
        · have hieq : i = s.data.trials.length := by
            simp only [List.length_append, List.length_cons,
              List.length_nil] at hi
            omega
          subst hieq
          have hget : (s.data.trials ++
                [makeDecision s.currentRound a rt ts]).get
              ⟨s.data.trials.length, hi⟩ =
              makeDecision s.currentRound a rt ts := by
            simp
          rw [hget]
          show s.currentRound = s.data.trials.length + 1
          omega
      · intro t ht
        simp only [List.mem_append, List.mem_singleton] at ht
        rcases ht with h | h
        · exact hnat t h
        · subst h
          exact makeDecision_final_nat _ a ha rt ts
      · intro _
        refine ⟨?_, hle⟩
        show (s.data.trials ++ [makeDecision s.currentRound a rt ts]).length
            = s.currentRound
        simp only [List.length_append, List.length_cons, List.length_nil]
        omega
  case feedback.next =>
    split at hx
    case isFalse => exact Option.noConfusion hx
    case isTrue hlt =>
      obtain rfl := Option.some_injective _ hx
      obtain ⟨hlen, hle⟩ := hfb hp
      refine ⟨hround, hnat, by simp [SessionInv], ?_, by simp [SessionInv], by simp [SessionInv]⟩
      intro _
      refine ⟨?_, ?_⟩
      · show s.data.trials.length + 1 = s.currentRound + 1
        omega
      · show s.currentRound + 1 ≤ 5
        omega
  case feedback.finish ct =>
    split at hx
    case isTrue => exact Option.noConfusion hx
    case isFalse hge =>
      obtain rfl := Option.some_injective _ hx
      obtain ⟨hlen, hle⟩ := hfb hp
      have h5 : s.currentRound = 5 := by omega
      refine ⟨hround, hnat, by simp [SessionInv], by simp [SessionInv], by simp [SessionInv], ?_⟩
      intro _
      refine ⟨?_, ?_, _, rfl, rfl⟩
      · show s.data.trials.length = 5
        omega
      · show s.currentRound = 5
        omega
  case finalResults.restartConfirm =>
    obtain rfl := Option.some_injective _ hx
    simp [SessionInv, restart]

theorem exec_trials_length {s s' : ExpState} {e : Ev}
    (hx : exec s e = some s') :
    s'.data.trials.length = trialCount s.data.trials.length e := by
  cases hp : s.phase <;> cases e <;>
    simp only [exec, hp] at hx <;> try exact Option.noConfusion hx
  all_goals
    first
    | (obtain rfl := Option.some_injective _ hx; simp [trialCount, restart])
    | (split at hx <;> first
        | exact Option.noConfusion hx
        | (obtain rfl := Option.some_injective _ hx; simp [trialCount, restart]))

theorem run_trials_length :
    ∀ (evs : List Ev) {s s' : ExpState}, run s evs = some s' →
      s'.data.trials.length = evs.foldl trialCount s.data.trials.length := by
  intro evs
  induction evs with
  | nil =>
      intro s s' h
      simp only [run, List.foldlM] at h
      obtain rfl := Option.some_injective _ h
      simp
  | cons e evs ih =>
      intro s s' h
      simp only [run, List.foldlM_cons] at h
      cases hx : exec s e with
      | none => rw [hx] at h; exact Option.noConfusion h
      | some s1 =>
          rw [hx] at h
          simp only [Option.bind_eq_bind, Option.some_bind] at h
          have := ih h
          rw [List.foldl_cons, ← exec_trials_length hx]
          exact this

theorem run_preserves_inv :
    ∀ (evs : List Ev) {s s' : ExpState}, SessionInv s → run s evs = some s' →
      SessionInv s' := by
  intro evs
  induction evs with
  | nil =>
      intro s s' hI h
      simp only [run, List.foldlM] at h
      obtain rfl := Option.some_injective _ h
      exact hI
  | cons e evs ih =>
      intro s s' hI h
      simp only [run, List.foldlM_cons] at h
      cases hx : exec s e with
      | none => rw [hx] at h; exact Option.noConfusion h
      | some s1 =>
          rw [hx] at h
          simp only [Option.bind_eq_bind, Option.some_bind] at h
          exact ih (exec_preserves_inv hI hx) h

theorem initState_inv (pid ts : String) : SessionInv (initState pid ts) := by
  simp [SessionInv, initState]

theorem inv_trials_le_five {s : ExpState} (hI : SessionInv s) :
    s.data.trials.length ≤ 5 := by
  obtain ⟨-, -, hempty, hdec, hfb, hfin⟩ := hI
  cases hp : s.phase
  · simp [hempty (Or.inl hp)]
  · simp [hempty (Or.inr (Or.inl hp))]
  · simp [hempty (Or.inr (Or.inr hp))]
  · obtain ⟨h1, h2⟩ := hdec hp; omega
  · obtain ⟨h1, h2⟩ := hfb hp; omega
  · obtain ⟨h1, -, -⟩ := hfin hp; omega

/-- C4: in every reachable session state, the number of stored trials never
exceeds the 5 total rounds, it equals the number of rounds completed since
the last restart, and the stored round indices are exactly 1..length in
order. -/
theorem trust_c4_session_invariant (pid ts : String) (evs : List Ev)
    (s : ExpState) (h : run (initState pid ts) evs = some s) :
    s.data.trials.length ≤ 5 ∧
    s.data.trials.length = completedRounds evs ∧
    ∀ i (hi : i < s.data.trials.length),
      (s.data.trials.get ⟨i, hi⟩).round = i + 1 := by
  have hI := run_preserves_inv evs (initState_inv pid ts) h
  refine ⟨inv_trials_le_five hI, ?_, hI.1⟩
  have := run_trials_length evs h
  simpa [completedRounds, initState] using this

/-- Witness for C4 on the concrete run `c4Evs`. -/
theorem trust_c4_witness :
    c4State.data.trials.length ≤ 5 ∧
    c4State.data.trials.length = completedRounds c4Evs :=
  ⟨(trust_c4_session_invariant "P" "TS" c4Evs c4State (by rfl)).1,
   (trust_c4_session_invariant "P" "TS" c4Evs c4State (by rfl)).2.1⟩

/-- C10: the two independently maintained CSV serializers — the one in the
experiment and the one in the data submitter — produce character-for-character
identical output on every session record. -/
theorem trust_c10_serializers_agree (d : SessionData) :
    TrustGameExperiment.convertToCSV d = DataSubmitter.convertToCSV d := rfl

theorem convertToCSV_eq_renderGrid (d : SessionData) :
    TrustGameExperiment.convertToCSV d = renderGrid (sessionGrid d) := rfl

theorem quoteJoin_data (row : List String) :
    (quoteJoin row).data = rowChars row := by
  induction row with
  | nil => rfl
  | cons f fs ih =>
      cases fs with
      | nil => simp [quoteJoin, joinSep, rowChars, String.data_append]
      | cons g gs =>
          have ih2 : (joinSep "," ((g :: gs).map
              (fun f => "\"" ++ f ++ "\""))).data = rowChars (g :: gs) := ih
          simp only [quoteJoin, List.map_cons, joinSep, rowChars,
            String.data_append] at ih2 ⊢
          rw [ih2]
          simp [String.data_append]

theorem renderGrid_data (grid : List (List String)) :
    (renderGrid grid).data = gridChars grid := by
  induction grid with
  | nil => rfl
  | cons r rs ih =>
      cases rs with
      | nil =>
          simp only [renderGrid, List.map_cons, List.map_nil, joinSep,
            gridChars]
          exact quoteJoin_data r
      | cons r2 rs2 =>
          have ih2 : (joinSep "\n" ((r2 :: rs2).map quoteJoin)).data =
              gridChars (r2 :: rs2) := ih
          simp only [renderGrid, List.map_cons, joinSep, gridChars,
            String.data_append] at ih2 ⊢
          rw [ih2, quoteJoin_data]
          simp [String.data_append]

theorem csv_fold_inQuotes (cs : List Char) (h : '"' ∉ cs)
    (rows : List (List String)) (row : List String) (acc : List Char) :
    List.foldlM csvStep ⟨rows, row, acc, .inQuotes⟩ cs =
      some ⟨rows, row, acc ++ cs, .inQuotes⟩ := by
  induction cs generalizing acc with
  | nil => simp
  | cons c cs ih =>
      have hc : ¬ c = '"' := fun hcc => h (by simp [hcc])
      have hcs : '"' ∉ cs := fun hm => h (List.mem_cons_of_mem _ hm)
      simp only [List.foldlM_cons, csvStep, if_neg hc, Option.bind_eq_bind,
        Option.some_bind]
      rw [ih hcs]
      simp

theorem csv_fold_field (f : String) (h : '"' ∉ f.data)
    (rows : List (List String)) (row : List String) :
    List.foldlM csvStep ⟨rows, row, [], .expectField⟩
        ('"' :: (f.data ++ ['"'])) =
      some ⟨rows, row, f.data, .afterQuote⟩ := by
  simp only [List.foldlM_cons, csvStep, if_pos, Option.bind_eq_bind,
    Option.some_bind]
  rw [List.foldlM_append]
  rw [csv_fold_inQuotes f.data h]
  simp [csvStep]

theorem dropLast_append_getLastD {α : Type} (f : α) (fs : List α) :
    (f :: fs).dropLast ++ [fs.getLastD f] = f :: fs := by
  induction fs generalizing f with
  | nil => rfl
  | cons g gs ih =>
      rw [List.getLastD_cons]
      show f :: ((g :: gs).dropLast ++ [gs.getLastD g]) = f :: g :: gs
      rw [ih g]

theorem csv_fold_row (fs : List String) (f : String)
    (h : ∀ g ∈ f :: fs, '"' ∉ g.data) (rows : List (List String))
    (rowAcc : List String) :
    List.foldlM csvStep ⟨rows, rowAcc, [], .expectField⟩
        (rowChars (f :: fs)) =
      some ⟨rows, rowAcc ++ (f :: fs).dropLast, (fs.getLastD f).data,
            .afterQuote⟩ := by
  induction fs generalizing f rowAcc with
  | nil =>
      rw [show rowChars [f] = '"' :: (f.data ++ ['"']) from rfl]
      rw [csv_fold_field f (h f (by simp)) rows rowAcc]
      simp
  | cons g gs ih =>
      rw [show rowChars (f :: g :: gs) =
          ('"' :: (f.data ++ ['"'])) ++ ',' :: rowChars (g :: gs) from rfl]
      rw [List.foldlM_append]
      rw [csv_fold_field f (h f (by simp)) rows rowAcc]
      simp only [Option.bind_eq_bind, Option.some_bind, List.foldlM_cons]
      have hstep : csvStep ⟨rows, rowAcc, f.data, .afterQuote⟩ ',' =
          some ⟨rows, rowAcc ++ [f], [], .expectField⟩ := by
        simp [csvStep]
      rw [hstep]
      simp only [Option.some_bind]
      rw [ih g (fun q hq => h q (List.mem_cons_of_mem _ hq)) (rowAcc ++ [f])]
      rw [List.getLastD_cons]
      simp

theorem csv_fold_grid :
    ∀ (rs : List (List String)) (r : List String),
      (∀ q ∈ r :: rs, q ≠ []) →
      (∀ q ∈ r :: rs, ∀ g ∈ q, '"' ∉ g.data) →
      ∀ rows : List (List String),
        ∃ rw fa,
          List.foldlM csvStep ⟨rows, [], [], .expectField⟩
              (gridChars (r :: rs)) =
            some ⟨rows ++ (r :: rs).dropLast, rw, fa, .afterQuote⟩ ∧
          rw ++ [String.mk fa] = rs.getLastD r := by
  intro rs
  induction rs with
  | nil =>
      intro r hne hq rows
      obtain ⟨f, fs, rfl⟩ : ∃ f fs, r = f :: fs := by
        cases r with
        | nil => exact absurd rfl (hne [] (by simp))
        | cons f fs => exact ⟨f, fs, rfl⟩
      refine ⟨(f :: fs).dropLast, (fs.getLastD f).data, ?_, ?_⟩
      · rw [show gridChars [f :: fs] = rowChars (f :: fs) from rfl]
        rw [csv_fold_row fs f (hq _ (by simp)) rows []]
        simp
      · exact dropLast_append_getLastD f fs
  | cons r2 rs ih =>
      intro r hne hq rows
      obtain ⟨f, fs, rfl⟩ : ∃ f fs, r = f :: fs := by
        cases r with
        | nil => exact absurd rfl (hne [] (by simp))
        | cons f fs => exact ⟨f, fs, rfl⟩
      rw [show gridChars ((f :: fs) :: r2 :: rs) =
          rowChars (f :: fs) ++ '\n' :: gridChars (r2 :: rs) from rfl]
      rw [List.foldlM_append]
      rw [csv_fold_row fs f (hq _ (by simp)) rows []]
      simp only [Option.bind_eq_bind, Option.some_bind, List.foldlM_cons]
      have hstep : csvStep ⟨rows, [] ++ (f :: fs).dropLast,
          (fs.getLastD f).data, .afterQuote⟩ '\n' =
          some ⟨rows ++ [f :: fs], [], [], .expectField⟩ := by
        have h2 : (f :: fs).dropLast ++
            [String.mk ((fs.getLastD f).data)] = f :: fs :=
          dropLast_append_getLastD f fs
        simp only [csvStep, List.nil_append]
        simp [h2]
        rwa [← List.getLastD_eq_getLast?]
      rw [hstep]
      simp only [Option.some_bind]
      obtain ⟨rw1, fa1, hfold, hlast⟩ :=
        ih r2 (fun q hq2 => hne q (List.mem_cons_of_mem _ hq2))
          (fun q hq2 => hq q (List.mem_cons_of_mem _ hq2)) (rows ++ [f :: fs])
      refine ⟨rw1, fa1, ?_, ?_⟩
      · rw [hfold]
        simp
      · rw [hlast]
        exact (List.getLastD_cons _ _ _).symm

theorem csvParse_renderGrid (r : List String) (rs : List (List String))
    (hne : ∀ q ∈ r :: rs, q ≠ [])
    (hq : ∀ q ∈ r :: rs, ∀ g ∈ q, '"' ∉ g.data) :
    csvParse (renderGrid (r :: rs)) = some (r :: rs) := by
  obtain ⟨rw, fa, hfold, hlast⟩ := csv_fold_grid rs r hne hq []
  unfold csvParse
  rw [renderGrid_data, hfold]
  simp only [List.nil_append]
  rw [show (⟨fa⟩ : String) = String.mk fa from rfl]
  conv_lhs => rw [show (r :: rs).dropLast ++ [rw ++ [String.mk fa]] =
    (r :: rs).dropLast ++ [rs.getLastD r] from by rw [hlast]]
  rw [dropLast_append_getLastD]

theorem digit_toNat (n : ℕ) (h : n < 10) :
    (Char.ofNat (48 + n)).toNat = 48 + n := by
  interval_cases n <;> decide

theorem natReprAux_foldl (fuel : ℕ) :
    ∀ n : ℕ, n < fuel → ∀ acc : ℕ,
      (natReprAux fuel n).foldl (fun a c => a * 10 + (c.toNat - 48)) acc =
        acc * 10 ^ (natReprAux fuel n).length + n := by
  induction fuel with
  | zero => intro n hn; omega
  | succ fuel ih =>
      intro n hn acc
      by_cases h10 : n < 10
      · simp only [natReprAux, if_pos h10, List.foldl_cons, List.foldl_nil,
          List.length_cons, List.length_nil]
        rw [digit_toNat n h10]
        simp
      · simp only [natReprAux, if_neg h10, List.foldl_append,
          List.length_append, List.foldl_cons, List.foldl_nil,
          List.length_cons, List.length_nil]
        rw [ih (n / 10) (by omega) acc]
        rw [digit_toNat (n % 10) (by omega)]
        have hmod : 48 + n % 10 - 48 = n % 10 := by omega
        rw [hmod, pow_succ]
        have hdm : n / 10 * 10 + n % 10 = n := by omega
        calc (acc * 10 ^ (natReprAux fuel (n / 10)).length + n / 10) * 10 +
              n % 10
            = acc * (10 ^ (natReprAux fuel (n / 10)).length * 10) +
              (n / 10 * 10 + n % 10) := by ring
          _ = acc * (10 ^ (natReprAux fuel (n / 10)).length * 10) + n := by
              rw [hdm]

theorem strToNat_natRepr (n : ℕ) : strToNat (natRepr n) = n := by
  show (natReprAux (n + 1) n).foldl (fun a c => a * 10 + (c.toNat - 48)) 0 = n
  rw [natReprAux_foldl (n + 1) n (by omega) 0]
  simp

theorem decRepr_natCast (n : ℕ) : decRepr ((n : ℕ) : ℚ) = natRepr n := by
  unfold decRepr intRepr
  rw [if_pos (Rat.den_natCast n), Rat.num_natCast]
  rw [if_neg (by omega : ¬ ((n : ℤ) < 0)), Int.toNat_natCast]

/-- C9 (amended): for every completed session whose serialized fields
contain no double-quote character, parsing the CSV export recovers the full
field grid: one row per trial plus the header, every field as text, and the
trial count is 5; summing the parsed `final_earnings` column reproduces the
summary's `total_earnings` exactly.  (The serializer quotes every field but
escapes nothing, so this breaks down exactly when a field embeds a `"`; see
the counterexample.) -/
theorem trust_c9_csv_round_trip (pid ts : String) (evs : List Ev)
    (s : ExpState)
    (hrun : run (initState pid ts) evs = some s)
    (hphase : s.phase = Phase.finalResults)
    (hq : ∀ r ∈ sessionGrid s.data, ∀ f ∈ r, '"' ∉ f.data) :
    csvParse (TrustGameExperiment.convertToCSV s.data) =
      some (sessionGrid s.data) ∧
    (sessionGrid s.data).length = 1 + s.data.trials.length ∧
    s.data.trials.length = 5 ∧
    ∃ sm, s.data.summary = some sm ∧
      ((sessionGrid s.data).tail.map
        (fun row => (strToNat (row.getD 12 "") : ℚ))).sum =
        sm.total_earnings := by
  have hI := run_preserves_inv evs (initState_inv pid ts) hrun
  obtain ⟨hround, hnat, hempty, hdec, hfb, hfin⟩ := hI
  obtain ⟨hlen5, hr5, sm, hsm, htot⟩ := hfin hphase
  refine ⟨?_, ?_, hlen5, sm, hsm, ?_⟩
  · rw [convertToCSV_eq_renderGrid]
    rw [show sessionGrid s.data =
        csvHeaderRow :: s.data.trials.map (csvTrialRow s.data) from rfl]
    apply csvParse_renderGrid
    · intro q hq2
      rcases List.mem_cons.mp hq2 with h | h
      · subst h; simp [csvHeaderRow]
      · obtain ⟨t, -, rfl⟩ := List.mem_map.mp h
        simp [csvTrialRow]
    · exact hq
  · simp only [sessionGrid, List.length_cons, List.length_map]
    omega
  · rw [htot]
    rw [show (sessionGrid s.data).tail =
        s.data.trials.map (csvTrialRow s.data) from rfl]
    rw [List.map_map]
    have hmap : s.data.trials.map
        ((fun row => (strToNat (row.getD 12 "") : ℚ)) ∘ csvTrialRow s.data) =
        s.data.trials.map (·.final_earnings) := by
      apply List.map_congr_left
      intro t ht
      obtain ⟨n, hn⟩ := hnat t ht
      show (strToNat ((csvTrialRow s.data t).getD 12 "") : ℚ) =
        t.final_earnings
      rw [show (csvTrialRow s.data t).getD 12 "" =
          decRepr t.final_earnings from rfl]
      rw [hn, decRepr_natCast, strToNat_natRepr]
    rw [hmap]

set_option maxHeartbeats 4000000 in
theorem c9State_run : run (initState "P9" "TS9") c9Evs = some c9State := by
  norm_num [run, c9Evs, c9State, List.foldlM, exec, initState, makeDecision,
    returnRate, returnRates, restart, analyzeTrustPattern,
    Rat.mkRat_eq_div]
  constructor <;> (intro h; exact absurd h (by decide))

/-- Witness for C9: the concrete all-zero session round-trips through the
CSV export and back. -/
theorem trust_c9_witness :
    csvParse (TrustGameExperiment.convertToCSV c9State.data) =
      some (sessionGrid c9State.data) ∧
    c9State.data.trials.length = 5 :=
  ⟨(trust_c9_csv_round_trip "P9" "TS9" c9Evs c9State c9State_run rfl
      (by decide)).1,
   (trust_c9_csv_round_trip "P9" "TS9" c9Evs c9State c9State_run rfl
      (by decide)).2.2.1⟩

set_option maxHeartbeats 4000000 in
set_option maxRecDepth 100000 in
/-- C9 counterexample: a completed five-trial session whose gender string
embeds a double quote serializes to CSV that a standard CSV reader rejects
outright (`none`): re-parsing recovers zero rows, not one row per trial,
because the serializer never escapes embedded quotes. -/
theorem trust_c9_counterexample :
    run (initState "PB" "TSB") c9BadEvs = some c9BadState ∧
    c9BadState.data.trials.length = 5 ∧
    csvParse (TrustGameExperiment.convertToCSV c9BadState.data) = none := by
  refine ⟨?_, rfl, by decide⟩
  norm_num [run, c9BadEvs, c9BadState, List.foldlM, exec, initState,
    makeDecision, returnRate, returnRates, restart, analyzeTrustPattern,
    Rat.mkRat_eq_div]
  constructor <;> (intro h; exact absurd h (by decide))
